import Mathlib

/-
  Verification of the PKI CA-configuration core
  (builtin/logical/pki/path_config_ca.go).

  The three request handlers `pathCAWrite`, `pathCAIssuersRead` and
  `pathCAIssuersWrite` are embedded as Lean functions over an explicit
  storage state, returning the response/error pair together with the final
  store and a trace of the externally visible effects (storage puts and
  gets, CRL builds, issuer-reference resolutions).  Collaborators that are
  not part of the source file (the PEM parser, the bundle conversion, the
  JSON storage-entry encoder, the storage engine's failure behaviour, the
  CRL builder and the issuer registry helpers) are modelled from the
  specification, with failures injected through an environment record so
  that every error path of the handlers is reachable.
-/

namespace PKI

/-- Errors returned by collaborators are carried as plain messages. -/
abbrev GoErr := String

/-- Private-key kind tag of a parsed bundle
(certutil.PrivateKeyType; `unknown` is certutil.UnknownPrivateKey). -/
inductive PrivateKeyType where
  | rsa
  | ec
  | ed25519
  | unknown
deriving DecidableEq

/-- The decoded certificate object; the handler only inspects its
CA basic-constraint flag. -/
structure Certificate where
  isCA : Bool
deriving DecidableEq

/-- Modelled from the spec: certutil.ParsedCertBundle (not under src/).
Holds the optional private-key material, its kind tag, the optional
decoded certificate and the raw certificate bytes. -/
structure ParsedCertBundle where
  privateKey : Option (List Nat)
  privateKeyType : PrivateKeyType
  certificate : Option Certificate
  certificateBytes : List Nat
deriving DecidableEq

/-- Modelled from the spec: the storage-form certificate bundle
(certutil.CertBundle, not under src/): a serializable projection holding
the certificate bytes and the private-key bytes. -/
structure CertBundle where
  certificate : List Nat
  privateKey : List Nat
deriving DecidableEq

/-- Modelled from the spec: the successful result of
ParsedCertBundle.ToCertBundle (not under src/) — the projection of the
parsed bundle onto its storage form, preserving the certificate bytes. -/
def mkCertBundle (p : ParsedCertBundle) : CertBundle :=
  { certificate := p.certificateBytes
    privateKey := p.privateKey.getD [] }

/-- Modelled from the spec: the structured (JSON) encoding of a
certificate bundle used by logical.StorageEntryJSON (not under src/),
as a concrete injective byte encoding. -/
def encodeCertBundle (cb : CertBundle) : List Nat :=
  cb.certificate.length :: (cb.certificate ++ cb.privateKey)

/-- Modelled from the spec: decoding of a stored certificate bundle,
the inverse of `encodeCertBundle`. -/
def decodeCertBundle (bs : List Nat) : Option CertBundle :=
  match bs with
  | [] => none
  | n :: rest => some { certificate := rest.take n, privateKey := rest.drop n }

/-- Issuers Configuration: holds the single configured default issuer
identifier. -/
structure IssuersConfig where
  DefaultIssuerId : String
deriving DecidableEq

/-- A value held in a storage entry: raw bytes (CA bundle, raw
certificate) or a structured issuers configuration. -/
inductive Val where
  | bytes (bs : List Nat)
  | cfg (c : IssuersConfig)
deriving DecidableEq

/-- The external flat-namespace key-value store, as an association list. -/
abbrev Store := List (String × Val)

/-- Storage write: replaces the binding for `k` in place, appending when
absent. -/
def storeSet (s : Store) (k : String) (v : Val) : Store :=
  match s with
  | [] => [(k, v)]
  | (k1, v1) :: rest =>
      if k1 = k then (k, v) :: rest else (k1, v1) :: storeSet rest k v

/-- Storage read. -/
def storeGet (s : Store) (k : String) : Option Val :=
  match s with
  | [] => none
  | (k1, v1) :: rest => if k1 = k then some v1 else storeGet rest k

/-- Kind tag of a PEM-parse error: errutil.InternalError versus every
other error type (the `default` arm of the type switch). -/
inductive ErrKind where
  | internalError
  | otherError
deriving DecidableEq

/-- An error produced by certutil.ParsePEMBundle: its kind and its
message (err.Error()). -/
structure ParseErr where
  kind : ErrKind
  msg : String
deriving DecidableEq

/-- A named issuer of the issuer registry: stable identifier and
human-readable name. -/
structure Issuer where
  id : String
  name : String
deriving DecidableEq

/-- The environment of external collaborators: the PEM parser, the
fault-injection oracles for bundle conversion, JSON encoding, storage
puts and gets, the CRL builder's outcome, and the issuer population
consulted by reference resolution. -/
structure Env where
  parsePEMBundle : String → Except ParseErr ParsedCertBundle
  toCertBundleFails : ParsedCertBundle → Option GoErr
  jsonEncodeFails : CertBundle → Option GoErr
  putFails : String → Val → Option GoErr
  getFails : String → Option GoErr
  crlResult : Bool → Option GoErr
  issuers : List Issuer

/-- Modelled from the spec: ParsedCertBundle.ToCertBundle (not under
src/): either the injected conversion failure or the storage-form
projection. -/
def toCertBundle (env : Env) (p : ParsedCertBundle) : Except GoErr CertBundle :=
  match env.toCertBundleFails p with
  | some e => .error e
  | none => .ok (mkCertBundle p)

/-- Modelled from the spec: logical.StorageEntryJSON (not under src/):
either the injected encoding failure or the concrete byte encoding of
the bundle. -/
def storageEntryJSON (env : Env) (cb : CertBundle) : Except GoErr (List Nat) :=
  match env.jsonEncodeFails cb with
  | some e => .error e
  | none => .ok (encodeCertBundle cb)

/-- An externally visible effect of a handler execution. -/
inductive Effect where
  | put (k : String) (v : Val)
  | get (k : String)
  | buildCRL (force : Bool)
  | resolveRef (ref : String)
deriving DecidableEq

/-- A structured response: an error response
(logical.ErrorResponse) or a data response with a string-valued data
map. -/
inductive Resp where
  | errResp (msg : String)
  | dataResp (data : List (String × String))
deriving DecidableEq

/-- The outcome of one handler execution: the (response, error) pair the
Go function returns, the storage state after the call, and the trace of
effects it performed. -/
structure HOut where
  resp : Option Resp
  err : Option GoErr
  store : Store
  trace : List Effect
deriving DecidableEq

/-- The CA-write handler (pathCAWrite): validates the PEM bundle in the
source's order, persists the serialized bundle at config/ca_bundle and
the raw certificate bytes at ca, then forces a CRL rebuild whose error
becomes the overall result. -/
def pathCAWrite (env : Env) (s : Store) (pemBundle : String) : HOut :=
  if pemBundle = "" then
    ⟨some (.errResp "'pem_bundle' was empty"), none, s, []⟩
  else
    match env.parsePEMBundle pemBundle with
    | .error pe =>
        match pe.kind with
        | .internalError => ⟨none, some pe.msg, s, []⟩
        | .otherError => ⟨some (.errResp pe.msg), none, s, []⟩
    | .ok parsedBundle =>
        match parsedBundle.privateKey with
        | none =>
            ⟨some (.errResp "private key not found in the PEM bundle"), none, s, []⟩
        | some _ =>
            if parsedBundle.privateKeyType = .unknown then
              ⟨some (.errResp "unknown private key found in the PEM bundle"), none, s, []⟩
            else
              match parsedBundle.certificate with
              | none =>
                  ⟨some (.errResp "no certificate found in the PEM bundle"), none, s, []⟩
              | some cert =>
                  if !cert.isCA then
                    ⟨some (.errResp "the given certificate is not marked for CA use and cannot be used with this backend"), none, s, []⟩
                  else
                    match toCertBundle env parsedBundle with
                    | .error e =>
                        ⟨none, some ("error converting raw values into cert bundle: " ++ e), s, []⟩
                    | .ok cb =>
                        match storageEntryJSON env cb with
                        | .error e => ⟨none, some e, s, []⟩
                        | .ok bs =>
                            match env.putFails "config/ca_bundle" (Val.bytes bs) with
                            | some e =>
                                ⟨none, some e, s,
                                  [.put "config/ca_bundle" (Val.bytes bs)]⟩
                            | none =>
                                match env.putFails "ca"
                                    (Val.bytes parsedBundle.certificateBytes) with
                                | some e =>
                                    ⟨none, some e,
                                      storeSet s "config/ca_bundle" (Val.bytes bs),
                                      [.put "config/ca_bundle" (Val.bytes bs),
                                        .put "ca" (Val.bytes parsedBundle.certificateBytes)]⟩
                                | none =>
                                    ⟨none, env.crlResult true,
                                      storeSet
                                        (storeSet s "config/ca_bundle" (Val.bytes bs))
                                        "ca" (Val.bytes parsedBundle.certificateBytes),
                                      [.put "config/ca_bundle" (Val.bytes bs),
                                        .put "ca" (Val.bytes parsedBundle.certificateBytes),
                                        .buildCRL true]⟩

/-- The storage key of the issuers configuration. -/
def issuersConfigKey : String := "config/issuers"

/-- Modelled from the spec: getIssuersConfig (not under src/): reads
config/issuers, returning the stored configuration or, lazily, an empty
default when the entry is absent; a storage Get failure is an error. -/
def getIssuersConfig (env : Env) (s : Store) :
    Except GoErr IssuersConfig × List Effect :=
  match env.getFails issuersConfigKey with
  | some e => (.error e, [.get issuersConfigKey])
  | none =>
      match storeGet s issuersConfigKey with
      | some (Val.cfg c) => (.ok c, [.get issuersConfigKey])
      | some (Val.bytes _) =>
          (.error "corrupt issuers configuration", [.get issuersConfigKey])
      | none => (.ok { DefaultIssuerId := "" }, [.get issuersConfigKey])

/-- Modelled from the spec: resolveIssuerReference (not under src/): the
reserved alias resolves to the configured default identifier; any other
reference is matched against stored issuer names, then identifiers, and
fails as not-found otherwise. -/
def resolveIssuerReference (env : Env) (s : Store) (ref : String) :
    Except GoErr String × List Effect :=
  if ref = "default" then
    match getIssuersConfig env s with
    | (.error e, tr) => (.error e, .resolveRef ref :: tr)
    | (.ok c, tr) => (.ok c.DefaultIssuerId, .resolveRef ref :: tr)
  else
    match env.issuers.find? (fun i => i.name = ref) with
    | some i => (.ok i.id, [.resolveRef ref])
    | none =>
        match env.issuers.find? (fun i => i.id = ref) with
        | some i => (.ok i.id, [.resolveRef ref])
        | none =>
            (.error ("unable to find issuer for reference: " ++ ref),
              [.resolveRef ref])

/-- Modelled from the spec: updateDefaultIssuerId (not under src/):
persists the identifier as the new DefaultIssuerId without re-validating
existence; a storage Put failure is an error. -/
def updateDefaultIssuerId (env : Env) (s : Store) (id : String) :
    Except GoErr Store × List Effect :=
  let v := Val.cfg { DefaultIssuerId := id }
  match env.putFails issuersConfigKey v with
  | some e => (.error e, [.put issuersConfigKey v])
  | none => (.ok (storeSet s issuersConfigKey v), [.put issuersConfigKey v])

/-- The issuer-config read handler (pathCAIssuersRead): returns the
configured DefaultIssuerId, wrapping a load failure in a structured
error response. -/
def pathCAIssuersRead (env : Env) (s : Store) : HOut :=
  match getIssuersConfig env s with
  | (.error e, tr) =>
      ⟨some (.errResp ("Error loading issuers configuration: " ++ e)),
        none, s, tr⟩
  | (.ok config, tr) =>
      ⟨some (.dataResp [("default", config.DefaultIssuerId)]), none, s, tr⟩

/-- The issuer-config write handler (pathCAIssuersWrite): rejects the
empty and reserved values, resolves the reference, persists the resolved
identifier and returns it; each failure is wrapped in a structured error
response. -/
def pathCAIssuersWrite (env : Env) (s : Store) (newDefault : String) : HOut :=
  if newDefault.length = 0 ∨ newDefault = "default" then
    ⟨some (.errResp "Invalid issuer specification; must be non-empty and can't be 'default'."),
      none, s, []⟩
  else
    match resolveIssuerReference env s newDefault with
    | (.error e, tr1) =>
        ⟨some (.errResp ("Error resolving issuer reference: " ++ e)),
          none, s, tr1⟩
    | (.ok parsedIssuer, tr1) =>
        match updateDefaultIssuerId env s parsedIssuer with
        | (.error e, tr2) =>
            ⟨some (.errResp ("Error updating issuer configuration: " ++ e)),
              none, s, tr1 ++ tr2⟩
        | (.ok s1, tr2) =>
            ⟨some (.dataResp [("default", parsedIssuer)]), none, s1,
              tr1 ++ tr2⟩

theorem storeGet_storeSet_same (s : Store) (k : String) (v : Val) :
    storeGet (storeSet s k v) k = some v := by
  induction s with
  | nil => simp [storeSet, storeGet]
  | cons hd tl ih =>
      obtain ⟨k1, v1⟩ := hd
      by_cases h : k1 = k <;> simp [storeSet, storeGet, h, ih]

theorem storeGet_storeSet_ne (s : Store) {k1 k2 : String} (v : Val)
    (h : k1 ≠ k2) : storeGet (storeSet s k1 v) k2 = storeGet s k2 := by
  induction s with
  | nil => simp [storeSet, storeGet, h]
  | cons hd tl ih =>
      obtain ⟨ka, va⟩ := hd
      by_cases hk : ka = k1
      · subst hk
        simp [storeSet, storeGet, h]
      · by_cases hk2 : ka = k2 <;>
          simp [storeSet, storeGet, hk, hk2, Ne.symm h, ih]

theorem storeSet_eq_self {s : Store} {k : String} {v : Val}
    (h : storeGet s k = some v) : storeSet s k v = s := by
  induction s with
  | nil => simp [storeGet] at h
  | cons hd tl ih =>
      obtain ⟨ka, va⟩ := hd
      by_cases hk : ka = k
      · subst hk
        simp [storeGet] at h
        simp [storeSet, h]
      · simp [storeGet, hk] at h
        simp [storeSet, hk, ih h]

/-- Evaluation of the CA-write handler on the full success path: every
validation step passes, conversion and encoding succeed, and both
storage puts succeed. -/
theorem pathCAWrite_success (env : Env) (s : Store) (pemBundle : String)
    (p : ParsedCertBundle) (kb : List Nat) (cert : Certificate)
    (hpem : ¬pemBundle = "")
    (hparse : env.parsePEMBundle pemBundle = .ok p)
    (hkey : p.privateKey = some kb)
    (htype : ¬p.privateKeyType = .unknown)
    (hcert : p.certificate = some cert)
    (hca : cert.isCA = true)
    (hconv : env.toCertBundleFails p = none)
    (henc : env.jsonEncodeFails (mkCertBundle p) = none)
    (hput1 : env.putFails "config/ca_bundle"
        (Val.bytes (encodeCertBundle (mkCertBundle p))) = none)
    (hput2 : env.putFails "ca" (Val.bytes p.certificateBytes) = none) :
    pathCAWrite env s pemBundle =
      ⟨none, env.crlResult true,
        storeSet (storeSet s "config/ca_bundle"
            (Val.bytes (encodeCertBundle (mkCertBundle p))))
          "ca" (Val.bytes p.certificateBytes),
        [.put "config/ca_bundle" (Val.bytes (encodeCertBundle (mkCertBundle p))),
          .put "ca" (Val.bytes p.certificateBytes), .buildCRL true]⟩ := by
  simp [pathCAWrite, hpem, hparse, hkey, htype, hcert, hca,
    toCertBundle, hconv, storageEntryJSON, henc, hput1, hput2]

theorem decodeCertBundle_encodeCertBundle (cb : CertBundle) :
    decodeCertBundle (encodeCertBundle cb) = some cb := by
  simp [decodeCertBundle, encodeCertBundle]

/-- ASCII lower-casing of a character, used to state case-variance. -/
def lowerAsciiChar (c : Char) : Char :=
  if c.isUpper then Char.ofNat (c.toNat + 32) else c

/-- ASCII lower-casing of a string, used to state case-variance. -/
def lowerAscii (s : String) : String := String.mk (s.data.map lowerAsciiChar)

/-- The trace of an issuer-reference resolution always begins with the
resolution of the given reference. -/
theorem resolveIssuerReference_trace (env : Env) (s : Store) (ref : String) :
    ∃ r tr, resolveIssuerReference env s ref = (r, .resolveRef ref :: tr) := by
  unfold resolveIssuerReference
  repeat' split
  all_goals exact ⟨_, _, rfl⟩

/-- A parsed bundle passing every validation step of the CA-write. -/
def pW : ParsedCertBundle :=
  { privateKey := some [1, 2]
    privateKeyType := .rsa
    certificate := some { isCA := true }
    certificateBytes := [9, 8, 7] }

/-- A parsed bundle with no private key. -/
def pNoKey : ParsedCertBundle :=
  { privateKey := none
    privateKeyType := .rsa
    certificate := some { isCA := true }
    certificateBytes := [5] }

/-- A parsed bundle with a private key of unknown kind. -/
def pUnknownKey : ParsedCertBundle :=
  { privateKey := some [3]
    privateKeyType := .unknown
    certificate := some { isCA := true }
    certificateBytes := [5] }

/-- A parsed bundle with no certificate. -/
def pNoCert : ParsedCertBundle :=
  { privateKey := some [3]
    privateKeyType := .ec
    certificate := none
    certificateBytes := [] }

/-- A parsed bundle whose certificate is not marked for CA use. -/
def pNotCA : ParsedCertBundle :=
  { privateKey := some [3]
    privateKeyType := .ed25519
    certificate := some { isCA := false }
    certificateBytes := [5] }

/-- A concrete environment in which every collaborator succeeds and the
parser maps a fixed table of inputs to the bundles above. -/
def envW : Env :=
  { parsePEMBundle := fun pem =>
      if pem = "goodpem" then .ok pW
      else if pem = "nokey" then .ok pNoKey
      else if pem = "unknownkey" then .ok pUnknownKey
      else if pem = "nocert" then .ok pNoCert
      else if pem = "notca" then .ok pNotCA
      else if pem = "internalbad" then
        .error { kind := .internalError, msg := "internal parse failure" }
      else .error { kind := .otherError, msg := "no data found" }
    toCertBundleFails := fun _ => none
    jsonEncodeFails := fun _ => none
    putFails := fun _ _ => none
    getFails := fun _ => none
    crlResult := fun _ => none
    issuers := [{ id := "id-123", name := "alpha" }] }

/-- As `envW`, but bundle conversion fails. -/
def envConvFail : Env := { envW with toCertBundleFails := fun _ => some "conv boom" }

/-- As `envW`, but storage-entry encoding fails. -/
def envEncFail : Env := { envW with jsonEncodeFails := fun _ => some "enc boom" }

/-- As `envW`, but the put of config/ca_bundle fails. -/
def envPut1Fail : Env :=
  { envW with putFails := fun k _ =>
      if k = "config/ca_bundle" then some "put1 boom" else none }

/-- As `envW`, but the put of ca fails. -/
def envPut2Fail : Env :=
  { envW with putFails := fun k _ => if k = "ca" then some "put2 boom" else none }

/-- As `envW`, but the CRL build fails. -/
def envCrlFail : Env := { envW with crlResult := fun _ => some "crl boom" }

/-- As `envW`, but every storage get fails. -/
def envGetFail : Env := { envW with getFails := fun _ => some "storage get failure" }

/-- As `envW`, but the put of config/issuers fails. -/
def envPutCfgFail : Env :=
  { envW with putFails := fun k _ =>
      if k = issuersConfigKey then some "cfg put boom" else none }

/-- Every error-response exit of the CA-write handler happens before any
storage effect: the trace is empty and the store is unchanged. -/
theorem pathCAWrite_errResp_pure (env : Env) (s : Store) (pem : String)
    (msg : String)
    (h : (pathCAWrite env s pem).resp = some (.errResp msg)) :
    (pathCAWrite env s pem).trace = [] ∧ (pathCAWrite env s pem).store = s := by
  unfold pathCAWrite at h ⊢
  repeat' split at h
  all_goals first
    | exact ⟨rfl, rfl⟩
    | simp_all

/-- C1: For every CA-write in which both storage writes succeed, the CRL
builder is invoked exactly once, with forceRegenerate = true; the CRL
build result becomes the overall result of the write, and the two
already-committed storage entries are not rolled back: they still hold
the newly written bundle and certificate bytes. -/
theorem c1_crl_forced_once_after_successful_writes
    (env : Env) (s : Store) (pemBundle : String)
    (p : ParsedCertBundle) (kb : List Nat) (cert : Certificate)
    (hpem : ¬pemBundle = "")
    (hparse : env.parsePEMBundle pemBundle = .ok p)
    (hkey : p.privateKey = some kb)
    (htype : ¬p.privateKeyType = .unknown)
    (hcert : p.certificate = some cert)
    (hca : cert.isCA = true)
    (hconv : env.toCertBundleFails p = none)
    (henc : env.jsonEncodeFails (mkCertBundle p) = none)
    (hput1 : env.putFails "config/ca_bundle"
        (Val.bytes (encodeCertBundle (mkCertBundle p))) = none)
    (hput2 : env.putFails "ca" (Val.bytes p.certificateBytes) = none) :
    (pathCAWrite env s pemBundle).trace.filter
        (fun e => match e with | .buildCRL _ => true | _ => false)
      = [.buildCRL true] ∧
    (pathCAWrite env s pemBundle).err = env.crlResult true ∧
    (pathCAWrite env s pemBundle).resp = none ∧
    storeGet (pathCAWrite env s pemBundle).store "config/ca_bundle"
      = some (Val.bytes (encodeCertBundle (mkCertBundle p))) ∧
    storeGet (pathCAWrite env s pemBundle).store "ca"
      = some (Val.bytes p.certificateBytes) := by
  rw [pathCAWrite_success env s pemBundle p kb cert hpem hparse hkey htype
    hcert hca hconv henc hput1 hput2]
  refine ⟨by simp [List.filter], rfl, rfl, ?_, ?_⟩
  · rw [storeGet_storeSet_ne _ _ (by decide : ("ca" : String) ≠ "config/ca_bundle"),
      storeGet_storeSet_same]
  · rw [storeGet_storeSet_same]

/-- C1 witness: a concrete CA-write in which both puts succeed and the
CRL build fails; the CRL is built exactly once with force = true, the
failure is the overall result, and both entries remain committed. -/
theorem c1_witness :
    (pathCAWrite envCrlFail [] "goodpem").trace.filter
        (fun e => match e with | .buildCRL _ => true | _ => false)
      = [.buildCRL true] ∧
    (pathCAWrite envCrlFail [] "goodpem").err = envCrlFail.crlResult true ∧
    (pathCAWrite envCrlFail [] "goodpem").resp = none ∧
    storeGet (pathCAWrite envCrlFail [] "goodpem").store "config/ca_bundle"
      = some (Val.bytes (encodeCertBundle (mkCertBundle pW))) ∧
    storeGet (pathCAWrite envCrlFail [] "goodpem").store "ca"
      = some (Val.bytes pW.certificateBytes) :=
  c1_crl_forced_once_after_successful_writes envCrlFail [] "goodpem" pW
    [1, 2] { isCA := true } (by decide) rfl rfl (by decide) rfl rfl rfl rfl
    rfl rfl

/-- C2: For every PEM bundle passing validation, the CA-write persists,
in order, the serialized certificate bundle under config/ca_bundle and
then the raw certificate bytes under ca; afterwards Get ca returns
exactly the parsed bundle's certificate bytes and the certificate
reconstructed from Get config/ca_bundle is byte-identical to that same
certificate. -/
theorem c2_write_order_and_round_trip
    (env : Env) (s : Store) (pemBundle : String)
    (p : ParsedCertBundle) (kb : List Nat) (cert : Certificate)
    (hpem : ¬pemBundle = "")
    (hparse : env.parsePEMBundle pemBundle = .ok p)
    (hkey : p.privateKey = some kb)
    (htype : ¬p.privateKeyType = .unknown)
    (hcert : p.certificate = some cert)
    (hca : cert.isCA = true)
    (hconv : env.toCertBundleFails p = none)
    (henc : env.jsonEncodeFails (mkCertBundle p) = none)
    (hput1 : env.putFails "config/ca_bundle"
        (Val.bytes (encodeCertBundle (mkCertBundle p))) = none)
    (hput2 : env.putFails "ca" (Val.bytes p.certificateBytes) = none) :
    (pathCAWrite env s pemBundle).trace =
      [.put "config/ca_bundle" (Val.bytes (encodeCertBundle (mkCertBundle p))),
        .put "ca" (Val.bytes p.certificateBytes), .buildCRL true] ∧
    storeGet (pathCAWrite env s pemBundle).store "ca"
      = some (Val.bytes p.certificateBytes) ∧
    (∃ bs, storeGet (pathCAWrite env s pemBundle).store "config/ca_bundle"
        = some (Val.bytes bs) ∧
      (decodeCertBundle bs).map CertBundle.certificate
        = some p.certificateBytes) := by
  rw [pathCAWrite_success env s pemBundle p kb cert hpem hparse hkey htype
    hcert hca hconv henc hput1 hput2]
  refine ⟨rfl, by rw [storeGet_storeSet_same], ⟨encodeCertBundle (mkCertBundle p), ?_, ?_⟩⟩
  · rw [storeGet_storeSet_ne _ _ (by decide : ("ca" : String) ≠ "config/ca_bundle"),
      storeGet_storeSet_same]
  · rw [decodeCertBundle_encodeCertBundle]
    rfl

/-- C2 witness: the concrete round trip holds for a successful write of
the good bundle into the empty store. -/
theorem c2_witness :
    (pathCAWrite envW [] "goodpem").trace =
      [.put "config/ca_bundle" (Val.bytes (encodeCertBundle (mkCertBundle pW))),
        .put "ca" (Val.bytes pW.certificateBytes), .buildCRL true] ∧
    storeGet (pathCAWrite envW [] "goodpem").store "ca"
      = some (Val.bytes pW.certificateBytes) ∧
    (∃ bs, storeGet (pathCAWrite envW [] "goodpem").store "config/ca_bundle"
        = some (Val.bytes bs) ∧
      (decodeCertBundle bs).map CertBundle.certificate
        = some pW.certificateBytes) :=
  c2_write_order_and_round_trip envW [] "goodpem" pW [1, 2] { isCA := true }
    (by decide) rfl rfl (by decide) rfl rfl rfl rfl rfl rfl

/-- C3: The CA-write validates its input in the fixed order — pem_bundle
non-empty, PEM parse, private key present, key type known, certificate
present, CA flag set — the first failing check wins and yields the
structured user-error response with its specified message (for an empty
pem_bundle, exactly the quoted empty-bundle message), and on every
user-input failure no storage key is read or written and the store is
unchanged. -/
theorem c3_validation_order_messages_and_purity (env : Env) (s : Store) :
    (pathCAWrite env s "" =
      ⟨some (.errResp "'pem_bundle' was empty"), none, s, []⟩) ∧
    (∀ pem pe, ¬pem = "" → env.parsePEMBundle pem = .error pe →
      pe.kind = .otherError →
      pathCAWrite env s pem = ⟨some (.errResp pe.msg), none, s, []⟩) ∧
    (∀ pem p, ¬pem = "" → env.parsePEMBundle pem = .ok p →
      p.privateKey = none →
      pathCAWrite env s pem =
        ⟨some (.errResp "private key not found in the PEM bundle"), none, s, []⟩) ∧
    (∀ pem p kb, ¬pem = "" → env.parsePEMBundle pem = .ok p →
      p.privateKey = some kb → p.privateKeyType = .unknown →
      pathCAWrite env s pem =
        ⟨some (.errResp "unknown private key found in the PEM bundle"), none, s, []⟩) ∧
    (∀ pem p kb, ¬pem = "" → env.parsePEMBundle pem = .ok p →
      p.privateKey = some kb → ¬p.privateKeyType = .unknown →
      p.certificate = none →
      pathCAWrite env s pem =
        ⟨some (.errResp "no certificate found in the PEM bundle"), none, s, []⟩) ∧
    (∀ pem p kb cert, ¬pem = "" → env.parsePEMBundle pem = .ok p →
      p.privateKey = some kb → ¬p.privateKeyType = .unknown →
      p.certificate = some cert → cert.isCA = false →
      pathCAWrite env s pem =
        ⟨some (.errResp "the given certificate is not marked for CA use and cannot be used with this backend"), none, s, []⟩) ∧
    (∀ pem msg, (pathCAWrite env s pem).resp = some (.errResp msg) →
      (pathCAWrite env s pem).trace = [] ∧
      (pathCAWrite env s pem).store = s) := by
  refine ⟨by simp [pathCAWrite], ?_, ?_, ?_, ?_, ?_, ?_⟩
  · intro pem pe h1 h2 h3
    simp [pathCAWrite, h1, h2, h3]
  · intro pem p h1 h2 h3
    simp [pathCAWrite, h1, h2, h3]
  · intro pem p kb h1 h2 h3 h4
    simp [pathCAWrite, h1, h2, h3, h4]
  · intro pem p kb h1 h2 h3 h4 h5
    simp [pathCAWrite, h1, h2, h3, h4, h5]
  · intro pem p kb cert h1 h2 h3 h4 h5 h6
    simp [pathCAWrite, h1, h2, h3, h4, h5, h6]
  · intro pem msg h
    exact pathCAWrite_errResp_pure env s pem msg h

/-- C3 witness: each validation failure, exercised concretely, yields
its specified message with no storage effects. -/
theorem c3_witness :
    pathCAWrite envW [] "" =
      ⟨some (.errResp "'pem_bundle' was empty"), none, [], []⟩ ∧
    pathCAWrite envW [] "badpem" =
      ⟨some (.errResp "no data found"), none, [], []⟩ ∧
    pathCAWrite envW [] "nokey" =
      ⟨some (.errResp "private key not found in the PEM bundle"), none, [], []⟩ ∧
    pathCAWrite envW [] "unknownkey" =
      ⟨some (.errResp "unknown private key found in the PEM bundle"), none, [], []⟩ ∧
    pathCAWrite envW [] "nocert" =
      ⟨some (.errResp "no certificate found in the PEM bundle"), none, [], []⟩ ∧
    pathCAWrite envW [] "notca" =
      ⟨some (.errResp "the given certificate is not marked for CA use and cannot be used with this backend"), none, [], []⟩ :=
  ⟨(c3_validation_order_messages_and_purity envW []).1,
    (c3_validation_order_messages_and_purity envW []).2.1 "badpem"
      { kind := .otherError, msg := "no data found" } (by decide) rfl rfl,
    (c3_validation_order_messages_and_purity envW []).2.2.1 "nokey" pNoKey
      (by decide) rfl rfl,
    (c3_validation_order_messages_and_purity envW []).2.2.2.1 "unknownkey"
      pUnknownKey [3] (by decide) rfl rfl rfl,
    (c3_validation_order_messages_and_purity envW []).2.2.2.2.1 "nocert"
      pNoCert [3] (by decide) rfl rfl (by decide) rfl,
    (c3_validation_order_messages_and_purity envW []).2.2.2.2.2.1 "notca"
      pNotCA [3] { isCA := false } (by decide) rfl rfl (by decide) rfl rfl⟩

/-- C4 counterexample: a storage Get failure inside the issuer-config
read handler is returned as a structured error response with a nil
operation-level error, contradicting the claim that every internal-kind
failure in that handler is propagated as a non-nil error return. -/
theorem c4_counterexample :
    (pathCAIssuersRead envGetFail []).err = none ∧
    (pathCAIssuersRead envGetFail []).resp =
      some (.errResp "Error loading issuers configuration: storage get failure") :=
  ⟨rfl, rfl⟩

/-- C4 (amended): every internal-kind failure in the CA-write handler —
conversion, storage-entry encoding, either storage Put, or the CRL
build — is propagated as an operation-level error with no structured
response, while internal-kind failures in the issuer-config read and
write handlers (storage Get and Put failures) are returned as structured
error responses with a nil operation-level error. -/
theorem c4_amended_error_dispatch (env : Env) (s : Store) :
    (∀ pem p kb cert e, ¬pem = "" → env.parsePEMBundle pem = .ok p →
      p.privateKey = some kb → ¬p.privateKeyType = .unknown →
      p.certificate = some cert → cert.isCA = true →
      env.toCertBundleFails p = some e →
      pathCAWrite env s pem =
        ⟨none, some ("error converting raw values into cert bundle: " ++ e),
          s, []⟩) ∧
    (∀ pem p kb cert e, ¬pem = "" → env.parsePEMBundle pem = .ok p →
      p.privateKey = some kb → ¬p.privateKeyType = .unknown →
      p.certificate = some cert → cert.isCA = true →
      env.toCertBundleFails p = none →
      env.jsonEncodeFails (mkCertBundle p) = some e →
      pathCAWrite env s pem = ⟨none, some e, s, []⟩) ∧
    (∀ pem p kb cert e, ¬pem = "" → env.parsePEMBundle pem = .ok p →
      p.privateKey = some kb → ¬p.privateKeyType = .unknown →
      p.certificate = some cert → cert.isCA = true →
      env.toCertBundleFails p = none →
      env.jsonEncodeFails (mkCertBundle p) = none →
      env.putFails "config/ca_bundle"
        (Val.bytes (encodeCertBundle (mkCertBundle p))) = some e →
      pathCAWrite env s pem =
        ⟨none, some e, s,
          [.put "config/ca_bundle" (Val.bytes (encodeCertBundle (mkCertBundle p)))]⟩) ∧
    (∀ pem p kb cert e, ¬pem = "" → env.parsePEMBundle pem = .ok p →
      p.privateKey = some kb → ¬p.privateKeyType = .unknown →
      p.certificate = some cert → cert.isCA = true →
      env.toCertBundleFails p = none →
      env.jsonEncodeFails (mkCertBundle p) = none →
      env.putFails "config/ca_bundle"
        (Val.bytes (encodeCertBundle (mkCertBundle p))) = none →
      env.putFails "ca" (Val.bytes p.certificateBytes) = some e →
      pathCAWrite env s pem =
        ⟨none, some e,
          storeSet s "config/ca_bundle"
            (Val.bytes (encodeCertBundle (mkCertBundle p))),
          [.put "config/ca_bundle" (Val.bytes (encodeCertBundle (mkCertBundle p))),
            .put "ca" (Val.bytes p.certificateBytes)]⟩) ∧
    (∀ pem p kb cert e, ¬pem = "" → env.parsePEMBundle pem = .ok p →
      p.privateKey = some kb → ¬p.privateKeyType = .unknown →
      p.certificate = some cert → cert.isCA = true →
      env.toCertBundleFails p = none →
      env.jsonEncodeFails (mkCertBundle p) = none →
      env.putFails "config/ca_bundle"
        (Val.bytes (encodeCertBundle (mkCertBundle p))) = none →
      env.putFails "ca" (Val.bytes p.certificateBytes) = none →
      env.crlResult true = some e →
      (pathCAWrite env s pem).err = some e ∧
      (pathCAWrite env s pem).resp = none) ∧
    (∀ e, env.getFails issuersConfigKey = some e →
      pathCAIssuersRead env s =
        ⟨some (.errResp ("Error loading issuers configuration: " ++ e)),
          none, s, [.get issuersConfigKey]⟩) ∧
    (∀ v id e, ¬v.length = 0 → ¬v = "default" →
      env.issuers.find? (fun i => i.name = v) = some { id := id, name := v } →
      env.putFails issuersConfigKey (Val.cfg { DefaultIssuerId := id }) = some e →
      pathCAIssuersWrite env s v =
        ⟨some (.errResp ("Error updating issuer configuration: " ++ e)),
          none, s,
          [.resolveRef v,
            .put issuersConfigKey (Val.cfg { DefaultIssuerId := id })]⟩) := by
  refine ⟨?_, ?_, ?_, ?_, ?_, ?_, ?_⟩
  · intro pem p kb cert e h1 h2 h3 h4 h5 h6 h7
    simp [pathCAWrite, h1, h2, h3, h4, h5, h6, toCertBundle, h7]
  · intro pem p kb cert e h1 h2 h3 h4 h5 h6 h7 h8
    simp [pathCAWrite, h1, h2, h3, h4, h5, h6, toCertBundle, h7,
      storageEntryJSON, h8]
  · intro pem p kb cert e h1 h2 h3 h4 h5 h6 h7 h8 h9
    simp [pathCAWrite, h1, h2, h3, h4, h5, h6, toCertBundle, h7,
      storageEntryJSON, h8, h9]
  · intro pem p kb cert e h1 h2 h3 h4 h5 h6 h7 h8 h9 h10
    simp [pathCAWrite, h1, h2, h3, h4, h5, h6, toCertBundle, h7,
      storageEntryJSON, h8, h9, h10]
  · intro pem p kb cert e h1 h2 h3 h4 h5 h6 h7 h8 h9 h10 h11
    rw [pathCAWrite_success env s pem p kb cert h1 h2 h3 h4 h5 h6 h7 h8 h9 h10]
    exact ⟨h11, rfl⟩
  · intro e h
    simp [pathCAIssuersRead, getIssuersConfig, h]
  · intro v id e h1 h2 h3 h4
    simp [pathCAIssuersWrite, h1, h2, resolveIssuerReference, h3,
      updateDefaultIssuerId, h4]

/-- C4 witness: concrete runs showing a conversion failure surfacing as
an operation error of the CA-write, and storage Get and Put failures
surfacing as structured responses of the issuer-config handlers. -/
theorem c4_amended_witness :
    pathCAWrite envConvFail [] "goodpem" =
      ⟨none, some ("error converting raw values into cert bundle: " ++ "conv boom"),
        [], []⟩ ∧
    pathCAIssuersRead envGetFail [] =
      ⟨some (.errResp ("Error loading issuers configuration: " ++ "storage get failure")),
        none, [], [.get issuersConfigKey]⟩ ∧
    pathCAIssuersWrite envPutCfgFail [] "alpha" =
      ⟨some (.errResp ("Error updating issuer configuration: " ++ "cfg put boom")),
        none, [],
        [.resolveRef "alpha",
          .put issuersConfigKey (Val.cfg { DefaultIssuerId := "id-123" })]⟩ :=
  ⟨(c4_amended_error_dispatch envConvFail []).1 "goodpem" pW [1, 2]
      { isCA := true } "conv boom" (by decide) rfl rfl (by decide) rfl rfl rfl,
    (c4_amended_error_dispatch envGetFail []).2.2.2.2.2.1
      "storage get failure" rfl,
    (c4_amended_error_dispatch envPutCfgFail []).2.2.2.2.2.2
      "alpha" "id-123" "cfg put boom" (by decide) (by decide) rfl rfl⟩

/-- C5: A PEM-parse failure of the internal-error kind is returned as an
operation-level error carrying the parser's message, not rewritten into
a user-facing response; every other parse failure is returned as a
structured user-error response carrying the parser's message verbatim. -/
theorem c5_parse_error_kind_dispatch (env : Env) (s : Store) (pem : String)
    (pe : ParseErr) (hpem : ¬pem = "")
    (hparse : env.parsePEMBundle pem = .error pe) :
    (pe.kind = .internalError →
      pathCAWrite env s pem = ⟨none, some pe.msg, s, []⟩) ∧
    (pe.kind = .otherError →
      pathCAWrite env s pem = ⟨some (.errResp pe.msg), none, s, []⟩) := by
  constructor <;> intro hk <;> simp [pathCAWrite, hpem, hparse, hk]

/-- C5 witness: a concrete internal parse failure surfaces as the
operation error, and a concrete structural parse failure surfaces as a
user-error response with the same message. -/
theorem c5_witness :
    pathCAWrite envW [] "internalbad" =
      ⟨none, some "internal parse failure", [], []⟩ ∧
    pathCAWrite envW [] "badpem" =
      ⟨some (.errResp "no data found"), none, [], []⟩ :=
  ⟨(c5_parse_error_kind_dispatch envW [] "internalbad"
      { kind := .internalError, msg := "internal parse failure" }
      (by decide) rfl).1 rfl,
    (c5_parse_error_kind_dispatch envW [] "badpem"
      { kind := .otherError, msg := "no data found" }
      (by decide) rfl).2 rfl⟩

/-- C6: An issuer-config write whose value is the empty string or the
literal reserved alias is rejected with the structured user error,
unconditionally — for every environment, so independently of which
issuers exist — with an empty effect trace (no resolution, no storage
access) and an unchanged store. -/
theorem c6_reserved_and_empty_default_rejected (env : Env) (s : Store)
    (v : String) (hv : v = "" ∨ v = "default") :
    pathCAIssuersWrite env s v =
      ⟨some (.errResp "Invalid issuer specification; must be non-empty and can't be 'default'."),
        none, s, []⟩ := by
  rcases hv with h | h <;> subst h <;> rfl

/-- C6 witness: both rejected values, exercised concretely. -/
theorem c6_witness :
    pathCAIssuersWrite envW [] "" =
      ⟨some (.errResp "Invalid issuer specification; must be non-empty and can't be 'default'."),
        none, [], []⟩ ∧
    pathCAIssuersWrite envW [] "default" =
      ⟨some (.errResp "Invalid issuer specification; must be non-empty and can't be 'default'."),
        none, [], []⟩ :=
  ⟨c6_reserved_and_empty_default_rejected envW [] "" (Or.inl rfl),
    c6_reserved_and_empty_default_rejected envW [] "default" (Or.inr rfl)⟩

/-- C7: An issuer-config write whose value passes validation and whose
reference resolution — by stored issuer name or identifier — succeeds
with an identifier persists that identifier as the new DefaultIssuerId,
answers with a data response carrying the resolved identifier, and a
subsequent issuer-config read returns that same identifier verbatim. -/
theorem c7_write_persists_resolved_default (env : Env) (s : Store)
    (v id : String) (tr : List Effect)
    (hv0 : ¬v.length = 0) (hvd : ¬v = "default")
    (hres : resolveIssuerReference env s v = (.ok id, tr))
    (hput : env.putFails issuersConfigKey (Val.cfg { DefaultIssuerId := id }) = none)
    (hget : env.getFails issuersConfigKey = none) :
    pathCAIssuersWrite env s v =
      ⟨some (.dataResp [("default", id)]), none,
        storeSet s issuersConfigKey (Val.cfg { DefaultIssuerId := id }),
        tr ++ [.put issuersConfigKey (Val.cfg { DefaultIssuerId := id })]⟩ ∧
    pathCAIssuersRead env (pathCAIssuersWrite env s v).store =
      ⟨some (.dataResp [("default", id)]), none,
        (pathCAIssuersWrite env s v).store, [.get issuersConfigKey]⟩ := by
  have hw : pathCAIssuersWrite env s v =
      ⟨some (.dataResp [("default", id)]), none,
        storeSet s issuersConfigKey (Val.cfg { DefaultIssuerId := id }),
        tr ++ [.put issuersConfigKey (Val.cfg { DefaultIssuerId := id })]⟩ := by
    simp [pathCAIssuersWrite, hv0, hvd, hres, updateDefaultIssuerId, hput]
  refine ⟨hw, ?_⟩
  rw [hw]
  simp [pathCAIssuersRead, getIssuersConfig, hget, storeGet_storeSet_same]

/-- C7 witness: writing the name alpha, which resolves by name to
identifier id-123, persists and returns id-123 and the subsequent read
returns id-123; writing the identifier id-123 itself, which resolves by
identifier, does the same. -/
theorem c7_witness :
    (pathCAIssuersWrite envW [] "alpha" =
      ⟨some (.dataResp [("default", "id-123")]), none,
        storeSet [] issuersConfigKey (Val.cfg { DefaultIssuerId := "id-123" }),
        [.resolveRef "alpha",
          .put issuersConfigKey (Val.cfg { DefaultIssuerId := "id-123" })]⟩ ∧
    pathCAIssuersRead envW (pathCAIssuersWrite envW [] "alpha").store =
      ⟨some (.dataResp [("default", "id-123")]), none,
        (pathCAIssuersWrite envW [] "alpha").store, [.get issuersConfigKey]⟩) ∧
    (pathCAIssuersWrite envW [] "id-123" =
      ⟨some (.dataResp [("default", "id-123")]), none,
        storeSet [] issuersConfigKey (Val.cfg { DefaultIssuerId := "id-123" }),
        [.resolveRef "id-123",
          .put issuersConfigKey (Val.cfg { DefaultIssuerId := "id-123" })]⟩ ∧
    pathCAIssuersRead envW (pathCAIssuersWrite envW [] "id-123").store =
      ⟨some (.dataResp [("default", "id-123")]), none,
        (pathCAIssuersWrite envW [] "id-123").store, [.get issuersConfigKey]⟩) :=
  ⟨c7_write_persists_resolved_default envW [] "alpha" "id-123"
      [.resolveRef "alpha"] (by decide) (by decide) rfl rfl rfl,
    c7_write_persists_resolved_default envW [] "id-123" "id-123"
      [.resolveRef "id-123"] (by decide) (by decide) rfl rfl rfl⟩

/-- C8: Performing the CA-write twice with the same valid bundle leaves
storage — and the whole observable outcome — in the same state after the
second write as after the first: both writes re-derive and overwrite the
complete config/ca_bundle and ca entries from the same input. -/
theorem c8_ca_write_idempotent (env : Env) (s : Store) (pemBundle : String)
    (p : ParsedCertBundle) (kb : List Nat) (cert : Certificate)
    (hpem : ¬pemBundle = "")
    (hparse : env.parsePEMBundle pemBundle = .ok p)
    (hkey : p.privateKey = some kb)
    (htype : ¬p.privateKeyType = .unknown)
    (hcert : p.certificate = some cert)
    (hca : cert.isCA = true)
    (hconv : env.toCertBundleFails p = none)
    (henc : env.jsonEncodeFails (mkCertBundle p) = none)
    (hput1 : env.putFails "config/ca_bundle"
        (Val.bytes (encodeCertBundle (mkCertBundle p))) = none)
    (hput2 : env.putFails "ca" (Val.bytes p.certificateBytes) = none) :
    pathCAWrite env (pathCAWrite env s pemBundle).store pemBundle =
      pathCAWrite env s pemBundle := by
  have hfirst := pathCAWrite_success env s pemBundle p kb cert hpem hparse
    hkey htype hcert hca hconv henc hput1 hput2
  have hstore : (pathCAWrite env s pemBundle).store =
      storeSet (storeSet s "config/ca_bundle"
          (Val.bytes (encodeCertBundle (mkCertBundle p))))
        "ca" (Val.bytes p.certificateBytes) := by
    rw [hfirst]
  have hsecond := pathCAWrite_success env (pathCAWrite env s pemBundle).store
    pemBundle p kb cert hpem hparse hkey htype hcert hca hconv henc hput1 hput2
  have hne : ("ca" : String) ≠ "config/ca_bundle" := by decide
  have h1 : storeGet (storeSet (storeSet s "config/ca_bundle"
        (Val.bytes (encodeCertBundle (mkCertBundle p))))
        "ca" (Val.bytes p.certificateBytes)) "config/ca_bundle"
      = some (Val.bytes (encodeCertBundle (mkCertBundle p))) := by
    rw [storeGet_storeSet_ne _ _ hne, storeGet_storeSet_same]
  have h2 : storeGet (storeSet (storeSet s "config/ca_bundle"
        (Val.bytes (encodeCertBundle (mkCertBundle p))))
        "ca" (Val.bytes p.certificateBytes)) "ca"
      = some (Val.bytes p.certificateBytes) := storeGet_storeSet_same _ _ _
  rw [hsecond, hstore, hfirst, storeSet_eq_self h1, storeSet_eq_self h2]

/-- C8 witness: the concrete double write of the good bundle equals the
single write. -/
theorem c8_witness :
    pathCAWrite envW (pathCAWrite envW [] "goodpem").store "goodpem" =
      pathCAWrite envW [] "goodpem" :=
  c8_ca_write_idempotent envW [] "goodpem" pW [1, 2] { isCA := true }
    (by decide) rfl rfl (by decide) rfl rfl rfl rfl rfl rfl

/-- C9: In every execution of the CA-write handler, the only storage
writes it issues itself are puts of config/ca_bundle and ca (the only
other effect being the CRL-build call), and every other storage key —
config/issuers in particular — is left unchanged. -/
theorem c9_ca_write_frame (env : Env) (s : Store) (pem : String) (k : String)
    (hk1 : ¬k = "config/ca_bundle") (hk2 : ¬k = "ca") :
    (∀ e ∈ (pathCAWrite env s pem).trace,
      (∃ v, e = .put "config/ca_bundle" v ∨ e = .put "ca" v) ∨
        e = .buildCRL true) ∧
    storeGet (pathCAWrite env s pem).store k = storeGet s k := by
  unfold pathCAWrite
  repeat' split
  all_goals refine ⟨fun e he => ?_, ?_⟩
  all_goals try simp only [HOut.trace] at he
  all_goals try simp only [List.mem_cons, List.not_mem_nil, or_false] at he
  all_goals first
    | exact he.elim
    | rfl
    | (rcases he with he | he | he <;> first
        | exact Or.inl ⟨_, Or.inl he⟩
        | exact Or.inl ⟨_, Or.inr he⟩
        | exact Or.inr he)
    | (rcases he with he | he <;> first
        | exact Or.inl ⟨_, Or.inl he⟩
        | exact Or.inl ⟨_, Or.inr he⟩)
    | exact Or.inl ⟨_, Or.inl he⟩
    | (rw [storeGet_storeSet_ne _ _ (fun h => hk1 h.symm)])
    | (rw [storeGet_storeSet_ne _ _ (fun h => hk2 h.symm),
        storeGet_storeSet_ne _ _ (fun h => hk1 h.symm)])

/-- C9 witness: on the concrete successful write, every traced effect is
a put of one of the two CA keys or the CRL build, and config/issuers is
unchanged. -/
theorem c9_witness :
    (∀ e ∈ (pathCAWrite envW [] "goodpem").trace,
      (∃ v, e = .put "config/ca_bundle" v ∨ e = .put "ca" v) ∨
        e = .buildCRL true) ∧
    storeGet (pathCAWrite envW [] "goodpem").store "config/issuers" =
      storeGet [] "config/issuers" :=
  c9_ca_write_frame envW [] "goodpem" "config/issuers" (by decide) (by decide)

/-- C10: The reserved-alias rejection of the issuer-config write is an
exact, case-sensitive comparison with the literal reserved word: every
value that lower-cases to it without being equal to it is not rejected
and is forwarded to issuer-reference resolution. -/
theorem c10_reserved_check_case_sensitive (env : Env) (s : Store) (v : String)
    (hlow : lowerAscii v = "default") (hne : ¬v = "default") :
    (∃ tr, (pathCAIssuersWrite env s v).trace = .resolveRef v :: tr) ∧
    ¬pathCAIssuersWrite env s v =
      ⟨some (.errResp "Invalid issuer specification; must be non-empty and can't be 'default'."),
        none, s, []⟩ := by
  have hv0 : ¬v.length = 0 := by
    intro h0
    cases v with
    | mk d =>
        simp [String.length] at h0
        subst h0
        exact absurd hlow (by decide)
  obtain ⟨r, tr, hres⟩ := resolveIssuerReference_trace env s v
  have htr : ∃ tr2, (pathCAIssuersWrite env s v).trace = .resolveRef v :: tr2 := by
    unfold pathCAIssuersWrite
    rcases r with e | id
    · simp [hv0, hne, hres]
    · rcases h2 : env.putFails issuersConfigKey (Val.cfg { DefaultIssuerId := id })
        with _ | e2
      all_goals simp [hv0, hne, hres, updateDefaultIssuerId, h2]
  refine ⟨htr, fun heq => ?_⟩
  obtain ⟨tr2, htr2⟩ := htr
  rw [heq] at htr2
  simp at htr2

/-- C10 witness: the value Default, a case variant of the reserved word,
is forwarded to resolution rather than rejected. -/
theorem c10_witness :
    (∃ tr, (pathCAIssuersWrite envW [] "Default").trace =
      .resolveRef "Default" :: tr) ∧
    ¬pathCAIssuersWrite envW [] "Default" =
      ⟨some (.errResp "Invalid issuer specification; must be non-empty and can't be 'default'."),
        none, [], []⟩ :=
  c10_reserved_check_case_sensitive envW [] "Default" (by decide) (by decide)

end PKI
